import Mathlib

/-!
Shallow embedding of the ScoutProf native sampling engine
(`ext/stacks/stacks.c`, the `RUBY_INTERNAL_EVENT_NEWOBJ && !_WIN32` build,
Linux being the primary target of the file).

Modelling conventions:
  * Every `__thread` atomic variable of `stacks.c`, together with the two
    process-wide flags `scout_profiling_installed` / `scout_profiling_running`,
    becomes a field of `State`.  The u16 atomics (`_start_frame_index`,
    `_start_trace_index`, `_cur_traces_num`) are `Nat`s kept below 2^16 by the
    store/add operations (`toU16`, `% 65536`); the u32 skip counters wrap at
    2^32 (`bump32`).
  * Opaque Ruby `VALUE`s (frame handles, `rb_thread_current()`) are `Nat`.
  * The runtime collaborators consulted during one invocation
    (`rb_during_gc`, `rb_thread_current`, `rb_postponed_job_register`,
    `rb_profile_frames`, and the `TYPE(frame) == VALID_RUBY_FRAME` test of the
    drain loop) are an `Env` record supplied per call.
  * The `_traces` array (`ALLOC_N(struct c_trace, MAX_TRACES)`, uninitialized
    memory) is a total function `Nat → CTrace`; allocation leaves its contents
    arbitrary, so `init_thread_vars` does not touch the `traces` field.
  * In `scout_record_sample`, `num_frames - start_frame_index` subtracts a
    `uint_fast16_t` from an `int`.  On the Linux targets `uint_fast16_t` is
    wider than (or as wide as) `int` and unsigned, so by the usual arithmetic
    conversions the subtraction and the `> 2` comparison are performed in
    unsigned arithmetic; we model it with the LP64 width, i.e. modulo 2^64.
    The value assigned to the `int` field `num_tracelines` is the result of
    converting that unsigned difference (minus 2) back to a 32-bit signed int
    (`toInt32`).
  * Similarly `cur_traces_num - start_trace_index > 0` in
    `rb_scout_profile_frames` is an unsigned comparison, hence equivalent to
    `cur_traces_num ≠ start_trace_index`.  When `cur_traces_num` is below
    `start_trace_index`, that wrapped difference is then handed to
    `rb_ary_new2`, which receives it as a negative `long` and raises
    `ArgumentError` ("negative array size") before the loop and before the
    final store into `_cur_traces_num`.  The drain is therefore fallible: it
    returns `Except`, the raising path propagating to the Ruby caller with
    the sampler state unchanged.  In the remaining (non-raising) cases the
    `for (i = start_trace_index; i < cur_traces_num; i++)` loop is mirrored
    by `List.range'`.
-/

def BUF_SIZE : Nat := 512

def MAX_TRACES : Nat := 2000

/-- Store of a C `int` into a `uint16_t` atomic (`ATOMIC_STORE_INT16`):
reduction modulo 2^16. -/
def toU16 (x : Int) : Nat := (x % 65536).toNat

/-- `ATOMIC_ADD(counter, 1)` on a `uint32_t` atomic: increment modulo 2^32. -/
def bump32 (x : Nat) : Nat := (x + 1) % 4294967296

/-- Conversion of an unsigned 64-bit value (given as a nonnegative `Int`)
to a signed 32-bit `int`, as gcc performs it (two's-complement wrap). -/
def toInt32 (x : Int) : Int := (x + 2147483648) % 4294967296 - 2147483648

/-- One slot of the `_traces` array (`struct c_trace`): an `int` count of
valid tracelines plus the two fixed 512-entry buffers, modelled as total
functions (entries past the last write keep their previous contents, exactly
like the C arrays). -/
structure CTrace where
  num_tracelines : Int
  frames_buf : Nat → Nat
  lines_buf : Nat → Int

/-- All mutable variables of `stacks.c` for one thread, plus the two global
flags.  Field names follow the C variables (sans leading underscore). -/
structure State where
  installed : Bool
  running : Bool
  thread_registered : Bool
  ok_to_sample : Bool
  in_signal_handler : Bool
  job_registered : Bool
  start_frame_index : Nat
  start_trace_index : Nat
  cur_traces_num : Nat
  skipped_in_gc : Nat
  skipped_in_signal_handler : Nat
  skipped_in_job_registered : Nat
  skipped_in_not_running : Nat
  ruby_thread : Nat
  traces : Nat → CTrace
  timer_armed : Bool

/-- Answers of the runtime collaborators during one invocation:
`rb_during_gc()`, `rb_thread_current()`, the return value of
`rb_postponed_job_register`, the frame/line pairs `rb_profile_frames` would
deliver right now, and the `TYPE(v) == VALID_RUBY_FRAME` test on a `VALUE`. -/
structure Env where
  during_gc : Bool
  current_thread : Nat
  postponed_job_result : Int
  profile_frames : List (Nat × Int)
  frame_valid : Nat → Bool

/-- Functional overwrite of one slot of the `_traces` array. -/
def writeSlot (tr : Nat → CTrace) (i : Nat) (t : CTrace) : Nat → CTrace :=
  fun j => if j = i then t else tr j

/-- `init_thread_vars`: zeroes five atomics, captures `rb_thread_current()`
into `_ruby_thread`, allocates `_traces` (uninitialized — the `traces` field
is left as-is), registers the GC hook and the atfork hooks, and creates (but
does not arm) the per-thread timer. -/
def init_thread_vars (e : Env) (s : State) : State :=
  { s with
    ok_to_sample := false
    in_signal_handler := false
    start_frame_index := 0
    start_trace_index := 0
    cur_traces_num := 0
    ruby_thread := e.current_thread
    timer_armed := false }

/-- `scout_add_profiled_thread`: returns 1 with no state change when the
thread is already registered; otherwise runs `init_thread_vars` and sets
`_thread_registered`.  The `Nat` component is the C return value. -/
def scout_add_profiled_thread (e : Env) (s : State) : Nat × State :=
  if s.thread_registered = true then (1, s)
  else (1, { init_thread_vars e s with thread_registered := true })

/-- `remove_profiled_thread`: no-op when not registered; otherwise forces
`_ok_to_sample` off, unregisters the GC hook, frees the buffers, deletes the
timer, and clears `_thread_registered`. -/
def remove_profiled_thread (s : State) : State :=
  if s.thread_registered = false then s
  else { s with ok_to_sample := false, timer_armed := false, thread_registered := false }

/-- `rb_scout_start_profiling`: sets the global `scout_profiling_running`. -/
def rb_scout_start_profiling (s : State) : State :=
  if s.running then s else { s with running := true }

/-- `rb_scout_uninstall_profiling`: the body is `return Qnil;` — a no-op. -/
def rb_scout_uninstall_profiling (s : State) : State := s

/-- `rb_scout_install_profiling`: fails (returns `Qfalse`) without touching
anything when `scout_profiling_installed` is already set; otherwise installs
the SIGALRM handler, sets the flag and returns `Qtrue`.  The `Bool` component
is the Ruby return value. -/
def rb_scout_install_profiling (s : State) : Bool × State :=
  if s.installed = true then (false, s)
  else (true, { s with installed := true })

/-- `scout_start_thread_timer`: arms the per-thread timer when registered. -/
def scout_start_thread_timer (s : State) : State :=
  if s.thread_registered = false then s
  else { s with timer_armed := true }

/-- `scout_stop_thread_timer`: disarms the per-thread timer when registered. -/
def scout_stop_thread_timer (s : State) : State :=
  if s.thread_registered = false then s
  else { s with timer_armed := false }

/-- `scout_profile_broadcast_signal_handler`: the SIGALRM handler. -/
def scout_profile_broadcast_signal_handler (e : Env) (s : State) : State :=
  if s.ok_to_sample = false then s
  else if s.in_signal_handler = true then
    { s with skipped_in_signal_handler := bump32 s.skipped_in_signal_handler }
  else
    let s1 := { s with in_signal_handler := true }
    let s2 :=
      if e.during_gc = true then
        { s1 with skipped_in_gc := bump32 s1.skipped_in_gc }
      else if e.current_thread ≠ s1.ruby_thread then
        { s1 with skipped_in_not_running := bump32 s1.skipped_in_not_running }
      else if s1.job_registered = false then
        if e.postponed_job_result = 1 ∨ e.postponed_job_result = 2 then
          { s1 with job_registered := true }
        else
          { s1 with skipped_in_job_registered := bump32 s1.skipped_in_job_registered }
      else s1
    { s2 with in_signal_handler := false }

/-- `scout_record_sample`: the deferred capture run from the postponed-job
queue.  `rb_profile_frames` writes the frame/line buffers of slot
`_cur_traces_num` before the `num_frames - start_frame_index > 2` test, so the
slot's buffers are overwritten even when the sample is then discarded. -/
def scout_record_sample (e : Env) (s : State) : State :=
  if s.ok_to_sample = false then s
  else if e.during_gc = true then
    { s with skipped_in_gc := bump32 s.skipped_in_gc }
  else if e.current_thread ≠ s.ruby_thread then
    { s with skipped_in_not_running := bump32 s.skipped_in_not_running }
  else
    let cur := s.cur_traces_num
    let sfi := s.start_frame_index
    let s1 :=
      if cur < MAX_TRACES then
        let frames := e.profile_frames
        let old := s.traces cur
        let written : CTrace :=
          { old with
            frames_buf := fun j => if j < frames.length then (frames.getD j (0, 0)).1 else old.frames_buf j
            lines_buf := fun j => if j < frames.length then (frames.getD j (0, 0)).2 else old.lines_buf j }
        if ((frames.length : Int) - (sfi : Int)) % 18446744073709551616 > 2 then
          { s with
            traces := writeSlot s.traces cur
              { written with
                num_tracelines := toInt32 (((frames.length : Int) - (sfi : Int) - 2) % 18446744073709551616) }
            cur_traces_num := (cur + 1) % 65536 }
        else
          { s with traces := writeSlot s.traces cur written }
      else s
    { s1 with job_registered := false }

/-- Inner loop of the drain: the `(frame, line)` pairs of one trace, keeping
only entries whose frame passes the `TYPE(v) == VALID_RUBY_FRAME` test. -/
def tracePairs (valid : Nat → Bool) (t : CTrace) : List (Nat × Int) :=
  (List.range t.num_tracelines.toNat).filterMap fun n =>
    if valid (t.frames_buf n) = true then some (t.frames_buf n, t.lines_buf n) else none

/-- `rb_scout_profile_frames`: drains traces `start_trace_index` up to
`cur_traces_num`, pushing (for slots whose `num_tracelines` is positive) one
Ruby array of pairs each, then stores `start_trace_index` into
`_cur_traces_num`.  The unsigned guard `cur - sti > 0` is true whenever the
two differ; when `cur < sti` the wrapped difference reaches `rb_ary_new2` as
a negative `long`, which raises `ArgumentError` before the loop and before
the final store, leaving the sampler state untouched (`Except.error`).  On an
unregistered thread: diagnostic log, trace count zeroed, empty array. -/
def rb_scout_profile_frames (e : Env) (s : State) :
    Except String (List (List (Nat × Int)) × State) :=
  if s.thread_registered = false then
    Except.ok ([], { s with cur_traces_num := 0 })
  else
    let cur := s.cur_traces_num
    let sti := s.start_trace_index
    if cur ≠ sti then
      if cur < sti then Except.error "ArgumentError"
      else
        Except.ok
          ((List.range' sti (cur - sti)).filterMap fun i =>
            if (s.traces i).num_tracelines > 0 then some (tracePairs e.frame_valid (s.traces i))
            else none,
          { s with cur_traces_num := sti })
    else Except.ok ([], { s with cur_traces_num := sti })

/-- `rb_scout_start_sampling`: registers the thread if needed, enables
sampling, arms the timer. -/
def rb_scout_start_sampling (e : Env) (s : State) : State :=
  let s1 := (scout_add_profiled_thread e s).2
  scout_start_thread_timer { s1 with ok_to_sample := true }

/-- `rb_scout_stop_sampling`: disarms the timer when sampling was on, clears
`_ok_to_sample`, and with `reset` additionally zeroes the two handler flags,
the three indexes and the four skip counters. -/
def rb_scout_stop_sampling (reset : Bool) (s : State) : State :=
  let s1 := if s.ok_to_sample = true then scout_stop_thread_timer s else s
  let s2 := { s1 with ok_to_sample := false }
  if reset = true then
    { s2 with
      job_registered := false
      in_signal_handler := false
      start_trace_index := 0
      start_frame_index := 0
      cur_traces_num := 0
      skipped_in_gc := 0
      skipped_in_signal_handler := 0
      skipped_in_job_registered := 0
      skipped_in_not_running := 0 }
  else s2

/-- `rb_scout_update_indexes`: unconditionally stores the two arguments into
the u16 trim indexes (trace index first, as in the source). -/
def rb_scout_update_indexes (frame_index trace_index : Int) (s : State) : State :=
  { s with
    start_trace_index := toU16 trace_index
    start_frame_index := toU16 frame_index }

/-- `rb_scout_current_trace_index`: reads `_cur_traces_num`. -/
def rb_scout_current_trace_index (s : State) : Nat := s.cur_traces_num

/-- `scout_parent_atfork_prepare`: disarm the timer when sampling is on. -/
def scout_parent_atfork_prepare (s : State) : State :=
  if s.ok_to_sample = true then scout_stop_thread_timer s else s

/-- `scout_parent_atfork_finish`: re-arm the timer when sampling is on. -/
def scout_parent_atfork_finish (s : State) : State :=
  if s.ok_to_sample = true then scout_start_thread_timer s else s

/-- One invocation of the control surface / runtime callbacks, with the
collaborator answers it consumes. -/
inductive Op where
  | install : Op
  | uninstall : Op
  | startProfiling : Op
  | addThread (e : Env) : Op
  | removeThread : Op
  | startSampling (e : Env) : Op
  | stopSampling (reset : Bool) : Op
  | updateIndexes (frame_index trace_index : Int) : Op
  | profileFrames (e : Env) : Op
  | handler (e : Env) : Op
  | recordSample (e : Env) : Op
  | currentTraceIndex : Op
  | atforkPrepare : Op
  | atforkFinish : Op

/-- State transition of one operation (return values discarded). -/
def step (op : Op) (s : State) : State :=
  match op with
  | Op.install => (rb_scout_install_profiling s).2
  | Op.uninstall => rb_scout_uninstall_profiling s
  | Op.startProfiling => rb_scout_start_profiling s
  | Op.addThread e => (scout_add_profiled_thread e s).2
  | Op.removeThread => remove_profiled_thread s
  | Op.startSampling e => rb_scout_start_sampling e s
  | Op.stopSampling r => rb_scout_stop_sampling r s
  | Op.updateIndexes f t => rb_scout_update_indexes f t s
  | Op.profileFrames e =>
      match rb_scout_profile_frames e s with
      | Except.ok (_, s1) => s1
      | Except.error _ => s
  | Op.handler e => scout_profile_broadcast_signal_handler e s
  | Op.recordSample e => scout_record_sample e s
  | Op.currentTraceIndex => s
  | Op.atforkPrepare => scout_parent_atfork_prepare s
  | Op.atforkFinish => scout_parent_atfork_finish s

/-- Running a sequence of operations. -/
def run (ops : List Op) (s : State) : State :=
  ops.foldl (fun s op => step op s) s

/-- Baseline concrete state used by witnesses and counterexamples: a
registered thread with sampling on and everything else at its initial value. -/
def s0 : State :=
  { installed := true
    running := true
    thread_registered := true
    ok_to_sample := true
    in_signal_handler := false
    job_registered := false
    start_frame_index := 0
    start_trace_index := 0
    cur_traces_num := 0
    skipped_in_gc := 0
    skipped_in_signal_handler := 0
    skipped_in_job_registered := 0
    skipped_in_not_running := 0
    ruby_thread := 0
    traces := fun _ => { num_tracelines := 0, frames_buf := fun _ => 0, lines_buf := fun _ => 0 }
    timer_armed := true }

/-- Baseline concrete environment: no GC, owning context current, postponed
job queue accepts, empty stack, every frame valid. -/
def env0 : Env :=
  { during_gc := false
    current_thread := 0
    postponed_job_result := 1
    profile_frames := []
    frame_valid := fun _ => true }

/-- A ten-frame stack, innermost first, as `rb_profile_frames` yields it. -/
def tenFrames : List (Nat × Int) :=
  [(11, 1), (12, 2), (13, 3), (14, 4), (15, 5), (16, 6), (17, 7), (18, 8), (19, 9), (20, 10)]

/-- Environment delivering the ten-frame stack. -/
def envTen : Env := { env0 with profile_frames := tenFrames }

/-!  Theorems settling the claims. -/

/-- Claim C8: `stop_sampling(reset = true)` leaves `_ok_to_sample` false, the
three indexes zero (so `current_trace_index()` returns 0), and all four skip
counters zero. -/
theorem rb_scout_stop_sampling_reset_spec (s : State) :
    (rb_scout_stop_sampling true s).ok_to_sample = false ∧
    (rb_scout_stop_sampling true s).start_frame_index = 0 ∧
    (rb_scout_stop_sampling true s).start_trace_index = 0 ∧
    (rb_scout_stop_sampling true s).cur_traces_num = 0 ∧
    rb_scout_current_trace_index (rb_scout_stop_sampling true s) = 0 ∧
    (rb_scout_stop_sampling true s).skipped_in_gc = 0 ∧
    (rb_scout_stop_sampling true s).skipped_in_signal_handler = 0 ∧
    (rb_scout_stop_sampling true s).skipped_in_job_registered = 0 ∧
    (rb_scout_stop_sampling true s).skipped_in_not_running = 0 :=
  ⟨rfl, rfl, rfl, rfl, rfl, rfl, rfl, rfl, rfl⟩

/-- Claim C10: `stop_sampling(reset = false)` only clears `_ok_to_sample`
(and disarms the timer when sampling was on and the thread is registered);
every other per-thread field keeps its prior value. -/
theorem rb_scout_stop_sampling_noreset_frame (s : State) :
    (rb_scout_stop_sampling false s).ok_to_sample = false ∧
    (rb_scout_stop_sampling false s).installed = s.installed ∧
    (rb_scout_stop_sampling false s).running = s.running ∧
    (rb_scout_stop_sampling false s).thread_registered = s.thread_registered ∧
    (rb_scout_stop_sampling false s).in_signal_handler = s.in_signal_handler ∧
    (rb_scout_stop_sampling false s).job_registered = s.job_registered ∧
    (rb_scout_stop_sampling false s).start_frame_index = s.start_frame_index ∧
    (rb_scout_stop_sampling false s).start_trace_index = s.start_trace_index ∧
    (rb_scout_stop_sampling false s).cur_traces_num = s.cur_traces_num ∧
    (rb_scout_stop_sampling false s).skipped_in_gc = s.skipped_in_gc ∧
    (rb_scout_stop_sampling false s).skipped_in_signal_handler = s.skipped_in_signal_handler ∧
    (rb_scout_stop_sampling false s).skipped_in_job_registered = s.skipped_in_job_registered ∧
    (rb_scout_stop_sampling false s).skipped_in_not_running = s.skipped_in_not_running ∧
    (rb_scout_stop_sampling false s).ruby_thread = s.ruby_thread ∧
    (rb_scout_stop_sampling false s).traces = s.traces ∧
    (rb_scout_stop_sampling false s).timer_armed =
      (if s.ok_to_sample = true ∧ s.thread_registered = true then false else s.timer_armed) := by
  unfold rb_scout_stop_sampling scout_stop_thread_timer
  rcases hok : s.ok_to_sample <;> rcases hreg : s.thread_registered <;> simp [hok, hreg]

/-- Claim C9: `install()` succeeds exactly once — the first call on an
uninstalled process sets the flag and returns true, later calls return false
and change nothing, no operation ever clears the flag, and `uninstall()` is a
no-op. -/
theorem rb_scout_install_profiling_once :
    (∀ s : State, s.installed = false →
        rb_scout_install_profiling s = (true, { s with installed := true })) ∧
    (∀ s : State, s.installed = true → rb_scout_install_profiling s = (false, s)) ∧
    (∀ (s : State) (op : Op), s.installed = true → (step op s).installed = true) ∧
    (∀ s : State, rb_scout_uninstall_profiling s = s) := by
  refine ⟨?_, ?_, ?_, fun s => rfl⟩
  · intro s h
    simp [rb_scout_install_profiling, h]
  · intro s h
    simp [rb_scout_install_profiling, h]
  · intro s op h
    rcases op <;>
      simp only [step, rb_scout_install_profiling, rb_scout_uninstall_profiling,
        rb_scout_start_profiling, scout_add_profiled_thread, init_thread_vars,
        remove_profiled_thread, rb_scout_start_sampling, rb_scout_stop_sampling,
        rb_scout_update_indexes, rb_scout_profile_frames,
        scout_profile_broadcast_signal_handler, scout_record_sample,
        scout_start_thread_timer, scout_stop_thread_timer,
        scout_parent_atfork_prepare, scout_parent_atfork_finish] <;>
      (try split_ifs) <;> simp [h]

/-- Claim C1 counterexample: a deferred capture invoked with
`_ok_to_sample == false` and `_job_registered == true` returns through the
first early-return branch without clearing `_job_registered`. -/
theorem scout_record_sample_job_not_cleared_on_early_return :
    (scout_record_sample env0
        { s0 with ok_to_sample := false, job_registered := true }).job_registered = true := rfl

/-- Claim C1 (amended): `scout_record_sample` clears `_job_registered` on
every invocation that passes the three entry guards (sampling enabled, not in
GC, owning context current), regardless of the buffer-full or short-stack
branch taken; the three early-return branches leave `_job_registered`
unchanged. -/
theorem scout_record_sample_job_registered_clear (s : State) (e : Env) :
    (s.ok_to_sample = true → e.during_gc = false → e.current_thread = s.ruby_thread →
      (scout_record_sample e s).job_registered = false) ∧
    (s.ok_to_sample = false → scout_record_sample e s = s) ∧
    (s.ok_to_sample = true → e.during_gc = true →
      (scout_record_sample e s).job_registered = s.job_registered) ∧
    (s.ok_to_sample = true → e.during_gc = false → e.current_thread ≠ s.ruby_thread →
      (scout_record_sample e s).job_registered = s.job_registered) := by
  refine ⟨?_, ?_, ?_, ?_⟩
  · intro h1 h2 h3
    simp [scout_record_sample, h1, h2, h3]
  · intro h1
    simp [scout_record_sample, h1]
  · intro h1 h2
    simp [scout_record_sample, h1, h2]
  · intro h1 h2 h3
    simp [scout_record_sample, h1, h2, h3]

/-- Claim C1 witness: on a concrete state passing the guards with a pending
job, the deferred capture clears `_job_registered`. -/
theorem scout_record_sample_job_registered_clear_witness :
    (scout_record_sample env0 { s0 with job_registered := true }).job_registered = false :=
  (scout_record_sample_job_registered_clear
    { s0 with job_registered := true } env0).1 rfl rfl rfl

/-- Claim C7 counterexample: registering a thread whose previous life left
`_skipped_in_gc = 7` and `_job_registered = true` does not zero either of
them (`init_thread_vars` touches neither the skip counters nor
`_job_registered`). -/
theorem scout_add_profiled_thread_keeps_counters :
    ((scout_add_profiled_thread env0
        { s0 with thread_registered := false, skipped_in_gc := 7,
                  job_registered := true }).2.skipped_in_gc = 7) ∧
    ((scout_add_profiled_thread env0
        { s0 with thread_registered := false, skipped_in_gc := 7,
                  job_registered := true }).2.job_registered = true) :=
  ⟨rfl, rfl⟩

/-- Claim C7 (amended): registering a not-yet-registered thread zeroes
`_ok_to_sample`, `_in_signal_handler`, `_start_frame_index`,
`_start_trace_index` and `_cur_traces_num`, records the calling context as
`_ruby_thread` and sets `_thread_registered`, leaving `_job_registered`, the
four skip counters and the trace buffer contents unchanged; on an
already-registered thread the call is a no-op returning success (1). -/
theorem scout_add_profiled_thread_spec (s : State) (e : Env) :
    (s.thread_registered = false →
      scout_add_profiled_thread e s =
        (1, { s with
              thread_registered := true
              ok_to_sample := false
              in_signal_handler := false
              start_frame_index := 0
              start_trace_index := 0
              cur_traces_num := 0
              ruby_thread := e.current_thread
              timer_armed := false })) ∧
    (s.thread_registered = true → scout_add_profiled_thread e s = (1, s)) := by
  constructor
  · intro h
    simp [scout_add_profiled_thread, init_thread_vars, h]
  · intro h
    simp [scout_add_profiled_thread, h]

/-- Claim C7 witness: on an already-registered thread the call returns 1 and
changes nothing. -/
theorem scout_add_profiled_thread_spec_witness :
    scout_add_profiled_thread env0 s0 = (1, s0) :=
  (scout_add_profiled_thread_spec s0 env0).2 rfl

/-- Claim C2: exhaustive case analysis of the signal handler: sampling off →
nothing; reentrant → only `_skipped_in_signal_handler` bumped; otherwise
exactly one of `_skipped_in_gc` (GC), `_skipped_in_not_running` (foreign
context), `_skipped_in_job_registered` (enqueue failed) is bumped, or
`_job_registered` is set (enqueue succeeded, result 1 or 2), or nothing
changes (job already pending); `_in_signal_handler` ends false in every
non-reentrant case. -/
theorem scout_profile_broadcast_signal_handler_cases (s : State) (e : Env) :
    (s.ok_to_sample = false → scout_profile_broadcast_signal_handler e s = s) ∧
    (s.ok_to_sample = true → s.in_signal_handler = true →
      scout_profile_broadcast_signal_handler e s =
        { s with skipped_in_signal_handler := bump32 s.skipped_in_signal_handler }) ∧
    (s.ok_to_sample = true → s.in_signal_handler = false → e.during_gc = true →
      scout_profile_broadcast_signal_handler e s =
        { s with skipped_in_gc := bump32 s.skipped_in_gc }) ∧
    (s.ok_to_sample = true → s.in_signal_handler = false → e.during_gc = false →
      e.current_thread ≠ s.ruby_thread →
      scout_profile_broadcast_signal_handler e s =
        { s with skipped_in_not_running := bump32 s.skipped_in_not_running }) ∧
    (s.ok_to_sample = true → s.in_signal_handler = false → e.during_gc = false →
      e.current_thread = s.ruby_thread → s.job_registered = false →
      (e.postponed_job_result = 1 ∨ e.postponed_job_result = 2) →
      scout_profile_broadcast_signal_handler e s = { s with job_registered := true }) ∧
    (s.ok_to_sample = true → s.in_signal_handler = false → e.during_gc = false →
      e.current_thread = s.ruby_thread → s.job_registered = false →
      ¬(e.postponed_job_result = 1 ∨ e.postponed_job_result = 2) →
      scout_profile_broadcast_signal_handler e s =
        { s with skipped_in_job_registered := bump32 s.skipped_in_job_registered }) ∧
    (s.ok_to_sample = true → s.in_signal_handler = false → e.during_gc = false →
      e.current_thread = s.ruby_thread → s.job_registered = true →
      scout_profile_broadcast_signal_handler e s = s) := by
  refine ⟨?_, ?_, ?_, ?_, ?_, ?_, ?_⟩
  · intro h1
    simp [scout_profile_broadcast_signal_handler, h1]
  · intro h1 h2
    simp [scout_profile_broadcast_signal_handler, h1, h2]
  · intro h1 h2 h3
    simp [scout_profile_broadcast_signal_handler, h1, h2, h3]
  · intro h1 h2 h3 h4
    simp [scout_profile_broadcast_signal_handler, h1, h2, h3, h4]
  · intro h1 h2 h3 h4 h5 h6
    simp only [scout_profile_broadcast_signal_handler, h1, h2, h3, h4, h5]
    rw [if_pos h6]
    simp [h2]
  · intro h1 h2 h3 h4 h5 h6
    simp only [scout_profile_broadcast_signal_handler, h1, h2, h3, h4, h5]
    rw [if_neg h6]
    simp [h2]
  · intro h1 h2 h3 h4 h5
    cases s
    simp_all [scout_profile_broadcast_signal_handler]

/-- Claim C2 witness: on a concrete idle state with an accepting job queue,
the handler registers the deferred capture and sets `_job_registered`. -/
theorem scout_profile_broadcast_signal_handler_cases_witness :
    scout_profile_broadcast_signal_handler env0 s0 = { s0 with job_registered := true } :=
  ((((scout_profile_broadcast_signal_handler_cases s0 env0).2.2.2.2).1)
    rfl rfl rfl rfl rfl (Or.inl rfl))

/-- `List.filterMap` with a positivity guard over mapped elements equals
filter-then-map. -/
theorem list_filterMap_guard (l : List Nat) (h : Nat → CTrace) (g : CTrace → List (Nat × Int)) :
    (l.filterMap fun i => if (h i).num_tracelines > 0 then some (g (h i)) else none)
      = ((l.map h).filter (fun t => decide (0 < t.num_tracelines))).map g := by
  induction l with
  | nil => rfl
  | cons a l ih =>
    by_cases hp : (h a).num_tracelines > 0
    · simp [List.filterMap_cons, List.filter_cons, hp, ih]
    · simp [List.filterMap_cons, List.filter_cons, hp, ih]

/-- `List.filterMap` degenerates to `List.map` when the function always
returns `some`. -/
theorem filterMap_of_forall_some {α β : Type} (f : α → Option β) (g : α → β) :
    ∀ l : List α, (∀ a ∈ l, f a = some (g a)) → l.filterMap f = l.map g := by
  intro l
  induction l with
  | nil => intro _; rfl
  | cons a l ih =>
    intro h
    rw [List.filterMap_cons, h a (by simp), List.map_cons,
      ih (fun b hb => h b (by simp [hb]))]

/-- When every buffered frame of a trace passes the `VALID_RUBY_FRAME` test,
the drained trace is exactly its first `num_tracelines` pairs in order. -/
theorem tracePairs_all_valid (valid : Nat → Bool) (t : CTrace)
    (h : ∀ n, n < t.num_tracelines.toNat → valid (t.frames_buf n) = true) :
    tracePairs valid t =
      (List.range t.num_tracelines.toNat).map fun n => (t.frames_buf n, t.lines_buf n) := by
  unfold tracePairs
  exact filterMap_of_forall_some _ _ _
    (fun n hn => by rw [if_pos (h n (List.mem_range.mp hn))])

/-- Claim C5 counterexample: on a registered thread with
`start_trace_index = 1 > cur_traces_num = 0`, the drain raises
`ArgumentError` inside `rb_ary_new2` (negative capacity from the unsigned
wrap) instead of returning a trace sequence, and the store of
`start_trace_index` into `_cur_traces_num` never executes: the count stays
0 ≠ 1. -/
theorem rb_scout_profile_frames_raises_on_inverted_indexes :
    rb_scout_profile_frames env0 { s0 with start_trace_index := 1 }
      = Except.error "ArgumentError" ∧
    (step (Op.profileFrames env0) { s0 with start_trace_index := 1 }).cur_traces_num = 0 ∧
    ({ s0 with start_trace_index := 1 } : State).thread_registered = true ∧
    ({ s0 with start_trace_index := 1 } : State).start_trace_index = 1 :=
  ⟨rfl, rfl, rfl, rfl⟩

/-- Claim C5 (amended): on a registered thread with
`start_trace_index ≤ cur_traces_num` whose buffered frames are all valid,
`profile_frames` returns precisely the traces at indexes
`start_trace_index ≤ i < cur_traces_num` whose `num_tracelines` is positive,
each as its ordered `(frame, line)` pairs, and stores `start_trace_index`
into `_cur_traces_num`; on a registered thread with
`cur_traces_num < start_trace_index` it raises `ArgumentError` (negative
capacity in `rb_ary_new2`) and leaves the state unchanged; on an
unregistered thread it logs a diagnostic, returns the empty list and zeroes
`_cur_traces_num`. -/
theorem rb_scout_profile_frames_drain_spec (s : State) (e : Env) :
    (s.thread_registered = true →
      s.start_trace_index ≤ s.cur_traces_num →
      (∀ i, s.start_trace_index ≤ i → i < s.cur_traces_num →
        ∀ n, n < ((s.traces i).num_tracelines).toNat →
          e.frame_valid ((s.traces i).frames_buf n) = true) →
      rb_scout_profile_frames e s =
        Except.ok
          ((((List.range' s.start_trace_index (s.cur_traces_num - s.start_trace_index)).map
                s.traces).filter (fun t => decide (0 < t.num_tracelines))).map
              (fun t => (List.range t.num_tracelines.toNat).map
                fun n => (t.frames_buf n, t.lines_buf n)),
           { s with cur_traces_num := s.start_trace_index })) ∧
    (s.thread_registered = true →
      s.cur_traces_num < s.start_trace_index →
      rb_scout_profile_frames e s = Except.error "ArgumentError" ∧
      step (Op.profileFrames e) s = s) ∧
    (s.thread_registered = false →
      rb_scout_profile_frames e s = Except.ok ([], { s with cur_traces_num := 0 })) := by
  refine ⟨?_, ?_, ?_⟩
  · intro hreg hle hvalid
    simp only [rb_scout_profile_frames, hreg, Bool.true_eq_false, if_false, Except.ok.injEq,
      Prod.mk.injEq]
    by_cases hc : s.cur_traces_num = s.start_trace_index
    · rw [if_neg (by simp [hc])]
      simp [hc]
    · rw [if_pos hc, if_neg (by omega)]
      simp only [Except.ok.injEq, Prod.mk.injEq]
      refine ⟨?_, trivial⟩
      rw [list_filterMap_guard]
      apply List.map_congr_left
      intro t ht
      rcases List.mem_map.mp (List.mem_filter.mp ht).1 with ⟨i, hi, rfl⟩
      rcases List.mem_range'_1.mp hi with ⟨hlo, hhi⟩
      exact tracePairs_all_valid _ _ (hvalid i hlo (by omega))
  · intro hreg hlt
    have herr : rb_scout_profile_frames e s = Except.error "ArgumentError" := by
      simp only [rb_scout_profile_frames, hreg, Bool.true_eq_false, if_false]
      rw [if_pos (by omega), if_pos hlt]
    refine ⟨herr, ?_⟩
    simp only [step, herr]
  · intro hreg
    simp [rb_scout_profile_frames, hreg]

/-- Concrete state for the drain witness: one stored trace of two lines. -/
def sOne : State :=
  { s0 with
    cur_traces_num := 1
    traces := fun _ => { num_tracelines := 2, frames_buf := fun _ => 100, lines_buf := fun _ => 7 } }

/-- Claim C5 witness: draining the one-trace state yields that trace's two
pairs and resets the trace count to the trim point (0). -/
theorem rb_scout_profile_frames_drain_spec_witness :
    rb_scout_profile_frames env0 sOne =
      Except.ok ([[(100, 7), (100, 7)]], { sOne with cur_traces_num := 0 }) :=
  ((rb_scout_profile_frames_drain_spec sOne env0).1 rfl (by decide)
    (fun _ _ _ _ _ => rfl)).trans rfl

/-- Claim C3 counterexample: with `start_frame_index = 11` and a 10-frame
stack, `n = 10 − 11 = −1 ≤ 2`, yet the capture stores a trace and increments
`_cur_traces_num` from 0 to 1, because `num_frames - start_frame_index` is
computed in unsigned `uint_fast16_t` arithmetic and wraps. -/
theorem scout_record_sample_stores_on_negative_frame_delta :
    ((scout_record_sample envTen { s0 with start_frame_index := 11 }).cur_traces_num = 1) ∧
    ((10 : Int) - 11 ≤ 2) := by
  constructor
  · rfl
  · decide

/-- Claim C3 (amended): for a capture that passes the entry guards with the
buffer not full, writing `n = num_frames − start_frame_index`: if `n > 2` the
slot at `_cur_traces_num` gets `num_tracelines = n − 2` and the count rises
by one; if `0 ≤ n ≤ 2` the sample is discarded with the count and all four
skip counters unchanged; if `n < 0` the unsigned comparison wraps, so the
slot is still stored — with `num_tracelines = n − 2 < 0` — and the count
rises by one.  Five captures of a ten-frame stack at
`start_frame_index = 0` leave `_cur_traces_num = 5` with 8 tracelines each. -/
theorem scout_record_sample_traceline_rule :
    (∀ (s : State) (e : Env),
      s.ok_to_sample = true → e.during_gc = false → e.current_thread = s.ruby_thread →
      s.cur_traces_num < MAX_TRACES → s.start_frame_index < 65536 →
      e.profile_frames.length ≤ BUF_SIZE →
      (((e.profile_frames.length : Int) - (s.start_frame_index : Int) > 2 →
        (scout_record_sample e s).cur_traces_num = s.cur_traces_num + 1 ∧
        ((scout_record_sample e s).traces s.cur_traces_num).num_tracelines
          = (e.profile_frames.length : Int) - (s.start_frame_index : Int) - 2) ∧
       (0 ≤ (e.profile_frames.length : Int) - (s.start_frame_index : Int) →
        (e.profile_frames.length : Int) - (s.start_frame_index : Int) ≤ 2 →
        (scout_record_sample e s).cur_traces_num = s.cur_traces_num ∧
        (scout_record_sample e s).skipped_in_gc = s.skipped_in_gc ∧
        (scout_record_sample e s).skipped_in_signal_handler = s.skipped_in_signal_handler ∧
        (scout_record_sample e s).skipped_in_job_registered = s.skipped_in_job_registered ∧
        (scout_record_sample e s).skipped_in_not_running = s.skipped_in_not_running) ∧
       ((e.profile_frames.length : Int) - (s.start_frame_index : Int) < 0 →
        (scout_record_sample e s).cur_traces_num = s.cur_traces_num + 1 ∧
        ((scout_record_sample e s).traces s.cur_traces_num).num_tracelines
          = (e.profile_frames.length : Int) - (s.start_frame_index : Int) - 2))) ∧
    ((run (List.replicate 5 (Op.recordSample envTen)) s0).cur_traces_num = 5 ∧
     ∀ i, i < 5 →
       ((run (List.replicate 5 (Op.recordSample envTen)) s0).traces i).num_tracelines = 8) := by
  constructor
  · intro s e h1 h2 h3 hcur hsfi hlen
    simp only [scout_record_sample, h1, h2, h3, BUF_SIZE] at *
    rw [if_neg (by simp), if_neg (by simp [h2]), if_neg (by simp)]
    rw [if_pos hcur]
    refine ⟨?_, ?_, ?_⟩
    · intro hn
      have hG : ((e.profile_frames.length : Int) - (s.start_frame_index : Int))
          % 18446744073709551616
          = (e.profile_frames.length : Int) - (s.start_frame_index : Int) := by
        apply Int.emod_eq_of_lt <;> omega
      rw [hG, if_pos hn]
      refine ⟨by simp [MAX_TRACES] at hcur ⊢; omega, ?_⟩
      simp only [writeSlot, if_pos rfl]
      simp [toInt32]
      omega
    · intro hn0 hn2
      have hG : ((e.profile_frames.length : Int) - (s.start_frame_index : Int))
          % 18446744073709551616
          = (e.profile_frames.length : Int) - (s.start_frame_index : Int) := by
        apply Int.emod_eq_of_lt <;> omega
      rw [hG, if_neg (by omega)]
      simp
    · intro hn
      have hG : ((e.profile_frames.length : Int) - (s.start_frame_index : Int))
          % 18446744073709551616
          = (e.profile_frames.length : Int) - (s.start_frame_index : Int)
            + 18446744073709551616 := by
        omega
      rw [hG, if_pos (by omega)]
      refine ⟨by simp [MAX_TRACES] at hcur ⊢; omega, ?_⟩
      simp only [writeSlot, if_pos rfl]
      simp [toInt32]
      omega
  · constructor
    · decide
    · decide

/-- Claim C3 witness: a ten-frame capture at `start_frame_index = 0` on an
empty buffer stores `num_tracelines = 8` and raises the count to 1. -/
theorem scout_record_sample_traceline_rule_witness :
    (scout_record_sample envTen s0).cur_traces_num = s0.cur_traces_num + 1 ∧
    ((scout_record_sample envTen s0).traces s0.cur_traces_num).num_tracelines
      = (envTen.profile_frames.length : Int) - (s0.start_frame_index : Int) - 2 :=
  (scout_record_sample_traceline_rule.1 s0 envTen rfl rfl rfl (by decide) (by decide)
    (by decide)).1 (by decide)

/-- Every single operation keeps `_cur_traces_num` within `MAX_TRACES`: the
only increment is guarded by `cur_traces_num < MAX_TRACES`, and the drain's
store of `start_trace_index` into the count executes only when that index is
at most the current count (otherwise `rb_ary_new2` raises first). -/
theorem step_traces_bound (s : State) (op : Op) (h : s.cur_traces_num ≤ MAX_TRACES) :
    (step op s).cur_traces_num ≤ MAX_TRACES := by
  rcases op <;>
    simp only [step, MAX_TRACES, rb_scout_install_profiling,
      rb_scout_uninstall_profiling, rb_scout_start_profiling,
      scout_add_profiled_thread, init_thread_vars, remove_profiled_thread,
      rb_scout_start_sampling, rb_scout_stop_sampling, rb_scout_update_indexes,
      rb_scout_profile_frames, scout_profile_broadcast_signal_handler,
      scout_record_sample, scout_start_thread_timer, scout_stop_thread_timer,
      scout_parent_atfork_prepare, scout_parent_atfork_finish] at * <;>
    (try split_ifs) <;> simp_all <;> omega

/-- The buffer bound holds after any run of operations. -/
theorem traces_bound_run (ops : List Op) :
    ∀ s : State, s.cur_traces_num ≤ MAX_TRACES →
      (run ops s).cur_traces_num ≤ MAX_TRACES := by
  induction ops with
  | nil => intro s h; exact h
  | cons op rest ih =>
    intro s h
    exact ih (step op s) (step_traces_bound s op h)

/-- Claim C4 (amended): `_cur_traces_num ≤ MAX_TRACES` is preserved by every
operation from any state satisfying it, with no side condition, and
registration establishes it (`_cur_traces_num := 0`); a deferred capture that
passes its entry guards (sampling enabled, no GC, owning context current)
with `_cur_traces_num == MAX_TRACES` leaves the count and all four skip
counters unchanged (the drop is silent); a capture invoked during GC still
increments its skip counter even at a full buffer. -/
theorem trace_count_le_max_traces :
    (∀ (ops : List Op) (s : State), s.cur_traces_num ≤ MAX_TRACES →
      (run ops s).cur_traces_num ≤ MAX_TRACES) ∧
    (∀ (e : Env) (s : State), s.thread_registered = false →
      ((scout_add_profiled_thread e s).2).cur_traces_num = 0) ∧
    (∀ (s : State) (e : Env), s.ok_to_sample = true → e.during_gc = false →
      e.current_thread = s.ruby_thread → s.cur_traces_num = MAX_TRACES →
      (scout_record_sample e s).cur_traces_num = MAX_TRACES ∧
      (scout_record_sample e s).skipped_in_gc = s.skipped_in_gc ∧
      (scout_record_sample e s).skipped_in_signal_handler = s.skipped_in_signal_handler ∧
      (scout_record_sample e s).skipped_in_job_registered = s.skipped_in_job_registered ∧
      (scout_record_sample e s).skipped_in_not_running = s.skipped_in_not_running) := by
  refine ⟨fun ops s h => traces_bound_run ops s h, ?_, ?_⟩
  · intro e s h
    simp [scout_add_profiled_thread, init_thread_vars, h]
  · intro s e h1 h2 h3 h4
    simp [scout_record_sample, h1, h2, h3, h4]

/-- Claim C4 counterexample: a deferred capture invoked during GC when
`_cur_traces_num == MAX_TRACES` increments `_skipped_in_gc` from 0 to 1 (the
GC check runs before the buffer-full check), so it is not true that every
capture invoked at a full buffer leaves all four skip counters unchanged. -/
theorem full_buffer_capture_during_gc_counts :
    (scout_record_sample { env0 with during_gc := true }
        { s0 with cur_traces_num := MAX_TRACES }).skipped_in_gc = 1 ∧
    ({ s0 with cur_traces_num := MAX_TRACES } : State).skipped_in_gc = 0 ∧
    ({ s0 with cur_traces_num := MAX_TRACES } : State).cur_traces_num = MAX_TRACES :=
  ⟨rfl, rfl, rfl⟩

/-- Claim C4 witness: one ten-frame capture from the baseline state keeps the
count within bound, and a guarded capture at a full buffer leaves the count
at `MAX_TRACES`. -/
theorem trace_count_le_max_traces_witness :
    (run [Op.recordSample envTen] s0).cur_traces_num ≤ MAX_TRACES ∧
    (scout_record_sample envTen { s0 with cur_traces_num := MAX_TRACES }).cur_traces_num
      = MAX_TRACES :=
  ⟨trace_count_le_max_traces.1 [Op.recordSample envTen] s0 (by decide),
   (trace_count_le_max_traces.2.2 { s0 with cur_traces_num := MAX_TRACES } envTen
      rfl rfl rfl rfl).1⟩

/-- Side condition of C6's amended claim: `update_indexes` called with a
trace index ≤ the current count, `profile_frames` only on a registered
thread. -/
def opKeepsOrder (s : State) : Op → Prop
  | Op.updateIndexes _ t => toU16 t ≤ s.cur_traces_num
  | Op.profileFrames _ => s.thread_registered = true
  | _ => True

/-- Claim C6 (amended): `start_trace_index ≤ cur_traces_num` is preserved by
every operation of the control surface — including the deferred capture, the
handler, registration and `stop_sampling` — from any state satisfying it,
provided `update_indexes` is called with a trace index ≤ the current trace
count and `drain_frames` runs on a registered thread (the two exceptions the
counterexample exhibits). -/
theorem start_trace_index_le_trace_count_preserved (s : State) (op : Op)
    (h : s.start_trace_index ≤ s.cur_traces_num) (hop : opKeepsOrder s op) :
    (step op s).start_trace_index ≤ (step op s).cur_traces_num := by
  rcases op <;>
    simp only [step, opKeepsOrder, MAX_TRACES, rb_scout_install_profiling,
      rb_scout_uninstall_profiling, rb_scout_start_profiling,
      scout_add_profiled_thread, init_thread_vars, remove_profiled_thread,
      rb_scout_start_sampling, rb_scout_stop_sampling, rb_scout_update_indexes,
      rb_scout_profile_frames, scout_profile_broadcast_signal_handler,
      scout_record_sample, scout_start_thread_timer, scout_stop_thread_timer,
      scout_parent_atfork_prepare, scout_parent_atfork_finish] at * <;>
    (try split_ifs) <;> simp_all <;> omega

/-- Claim C6 witness: `update_indexes(0, 0)` on the baseline state keeps the
ordering of the two indexes. -/
theorem start_trace_index_le_trace_count_preserved_witness :
    (step (Op.updateIndexes 0 0) s0).start_trace_index
      ≤ (step (Op.updateIndexes 0 0) s0).cur_traces_num :=
  start_trace_index_le_trace_count_preserved s0 (Op.updateIndexes 0 0)
    (by decide) (by simp [opKeepsOrder, toU16])

/-- Claim C6 counterexample: (a) `update_indexes(0, 1)` from the baseline
state (which satisfies `start ≤ count`: both 0) leaves
`start_trace_index = 1 > cur_traces_num = 0`; (b) draining an unregistered
thread with one stored trace and `start_trace_index = 1` zeroes the count but
not the start index. -/
theorem start_trace_index_gt_trace_count_reachable :
    ((step (Op.updateIndexes 0 1) s0).start_trace_index = 1 ∧
     (step (Op.updateIndexes 0 1) s0).cur_traces_num = 0) ∧
    ((step (Op.profileFrames env0)
        { s0 with thread_registered := false, start_trace_index := 1,
                  cur_traces_num := 1 }).start_trace_index = 1 ∧
     (step (Op.profileFrames env0)
        { s0 with thread_registered := false, start_trace_index := 1,
                  cur_traces_num := 1 }).cur_traces_num = 0) :=
  ⟨⟨rfl, rfl⟩, ⟨rfl, rfl⟩⟩

/-- Claim C9 witness: installing on a fresh process succeeds and sets the
flag; a second install fails and changes nothing. -/
theorem rb_scout_install_profiling_once_witness :
    rb_scout_install_profiling { s0 with installed := false }
      = (true, { { s0 with installed := false } with installed := true }) ∧
    rb_scout_install_profiling s0 = (false, s0) :=
  ⟨rb_scout_install_profiling_once.1 { s0 with installed := false } rfl,
   rb_scout_install_profiling_once.2.1 s0 rfl⟩
